import Mathlib

/-!
Verification of the grief-support responder (`src/chatbot.py`, class
`GriefSupportBot`) against its natural-language specification.

The Python module is shallowly embedded: the pre-compiled regular
expressions are represented by a small regex AST (`Rx`) together with an
executable backtracking matcher covering exactly the constructs the
source patterns use (literals, alternation, optional groups, one
character classes, `\s+`, and the `\b` word boundary); `re.IGNORECASE`
is modelled by searching the lowercased subject, which is faithful
because every pattern literal is lowercase ASCII.  The bot instance is a
record of its tables plus the mutable `_used_indexes` state, and
`random.choice` is modelled by an oracle (`Rng`) supplying an arbitrary
in-range index, so theorems quantified over the oracle cover every
possible behaviour of the random number generator.
-/

namespace GriefBot

/-- Regex abstract syntax, covering the constructs used by the source patterns. -/
inductive Rx : Type where
  | lit : List Char → Rx
  | cls : (Char → Bool) → Rx
  | seq : Rx → Rx → Rx
  | alt : Rx → Rx → Rx
  | opt : Rx → Rx
  | ws1 : Rx
  | wb  : Rx

/-- Python regex word character (`\w`), restricted to its ASCII part. -/
def isWordChar (c : Char) : Bool := c.isAlphanum || c == '_'

/-- Python whitespace (`\s`), ASCII part: space, tab, newline, CR, VT, FF. -/
def pyIsSpace (c : Char) : Bool :=
  c == ' ' || c == Char.ofNat 9 || c == Char.ofNat 10 || c == Char.ofNat 13 ||
  c == Char.ofNat 11 || c == Char.ofNat 12

def isWordOpt : Option Char → Bool
  | some c => isWordChar c
  | none => false

/-- Match a literal character sequence; returns the last consumed char and the rest. -/
def matchLit : List Char → Option Char → List Char → Option (Option Char × List Char)
  | [], prev, rest => some (prev, rest)
  | _ :: _, _, [] => none
  | c :: cs, _, d :: rest => if c == d then matchLit cs (some d) rest else none

/-- All ways to extend a `\s+` match that already consumed a whitespace char `c`. -/
def wsTail : Char → List Char → List (Option Char × List Char)
  | c, [] => [(some c, [])]
  | c, d :: rest => (some c, d :: rest) :: (if pyIsSpace d then wsTail d rest else [])

/-- Backtracking matcher: all (last consumed char, remaining input) pairs after
matching `rx` at the current position, given the char just before it. -/
def matchRx : Rx → Option Char → List Char → List (Option Char × List Char)
  | Rx.lit cs, prev, rest => (matchLit cs prev rest).toList
  | Rx.cls _, _, [] => []
  | Rx.cls f, _, c :: rest => if f c then [(some c, rest)] else []
  | Rx.seq a b, prev, rest => (matchRx a prev rest).flatMap (fun pr => matchRx b pr.1 pr.2)
  | Rx.alt a b, prev, rest => matchRx a prev rest ++ matchRx b prev rest
  | Rx.opt a, prev, rest => (prev, rest) :: matchRx a prev rest
  | Rx.ws1, _, [] => []
  | Rx.ws1, _, c :: rest => if pyIsSpace c then wsTail c rest else []
  | Rx.wb, prev, rest => if isWordOpt prev == isWordOpt rest.head? then [] else [(prev, rest)]

/-- Does `rx` match starting at some position of the remaining input? -/
def searchFrom (rx : Rx) : Option Char → List Char → Bool
  | prev, [] => !(matchRx rx prev []).isEmpty
  | prev, c :: rest => !(matchRx rx prev (c :: rest)).isEmpty || searchFrom rx (some c) rest

/-- Model of `pattern.search(s) is not None`. -/
def rxSearch (rx : Rx) (s : String) : Bool := searchFrom rx none s.data

/-- Model of Python `str.lower()` / `re.IGNORECASE` (ASCII case folding),
written over the character list so that it evaluates inside the kernel;
per character it is exactly `Char.toLower`. -/
def strLower (s : String) : String := String.mk (s.data.map Char.toLower)

def rlit (s : String) : Rx := Rx.lit s.data

def ralt : List Rx → Rx
  | [] => Rx.cls (fun _ => false)
  | [r] => r
  | r :: rs => Rx.alt r (ralt rs)

def rseq : List Rx → Rx
  | [] => Rx.lit []
  | [r] => r
  | r :: rs => Rx.seq r (rseq rs)

/-- Builder for `\bw\b`, a single literal word. -/
def word (w : String) : Rx := rseq [Rx.wb, rlit w, Rx.wb]

/-- Builder for `\b(a|b|...)\b`: a word boundary around an alternation group. -/
def wordGroup (alts : List Rx) : Rx := rseq [Rx.wb, ralt alts, Rx.wb]

/-- ASCII apostrophe as a regex literal (source: `'?` inside the crisis pattern). -/
def aposLit : Rx := Rx.lit [Char.ofNat 39]

/-- Builder for `[-\s]?` : optional hyphen-or-whitespace character. -/
def hyphenOrSpaceOpt : Rx := Rx.opt (Rx.cls (fun c => c == '-' || pyIsSpace c))

-- Pattern bank (source lines 99-111), one definition per compiled pattern.

def greetingRx : Rx := wordGroup [rlit "hello", rlit "hi", rlit "hey", rlit "greetings"]

def feelingBadRx : Rx := wordGroup [rlit "sad", rlit "depressed", rlit "overwhelmed",
  rlit "exhausted", rlit "tired", rlit "down", rlit "lonely", rlit "alone", rlit "lost",
  rseq [rlit "cry", Rx.opt (rlit "ing")], rlit "tears", rlit "difficult", rlit "hard"]

def feelingBetterRx : Rx := wordGroup [rlit "better", rlit "good", rlit "okay", rlit "ok",
  rlit "fine", rlit "alright", rlit "improving", rlit "hopeful", rlit "positive"]

def memoriesRx : Rx := ralt [word "memory", word "memories",
  rseq [Rx.wb, rlit "remember", Rx.opt (rlit "ed"), Rx.wb],
  rseq [Rx.wb, rlit "miss", Rx.opt (rlit "ing"), Rx.wb],
  rseq [rlit "loved", Rx.ws1, rlit "one"]]

def sleepIssuesRx : Rx := wordGroup [rlit "sleep", rlit "insomnia",
  rseq [rlit "nightmare", Rx.opt (rlit "s")], rseq [rlit "dream", Rx.opt (rlit "s")],
  rlit "awake", rlit "bed"]

def anniversaryRx : Rx := wordGroup [rlit "anniversary", rlit "birthday", rlit "holiday",
  rlit "christmas", rlit "thanksgiving", rseq [rlit "special", Rx.ws1, rlit "day"],
  rseq [rlit "year", Rx.ws1, rlit "since"], rseq [rlit "month", Rx.ws1, rlit "since"]]

def guiltRx : Rx := ralt [
  rseq [Rx.wb, rlit "guilt", Rx.opt (rlit "y"), Rx.wb],
  rseq [Rx.wb, rlit "blame", Rx.opt (rlit "d"), Rx.wb],
  word "fault", word "regret",
  rseq [rlit "should", Rx.opt (rseq [Rx.ws1, rlit "have"])],
  rseq [rlit "could", Rx.opt (rseq [Rx.ws1, rlit "have"])],
  rseq [rlit "would", Rx.opt (rseq [Rx.ws1, rlit "have"])],
  word "if only", word "sorry"]

def angerRx : Rx := wordGroup [rlit "angry", rlit "anger", rlit "mad", rlit "unfair",
  rlit "cruel", rlit "hate", rseq [rlit "resent", Rx.opt (rlit "ment")]]

def selfCareRx : Rx := ralt [
  rseq [rlit "self", hyphenOrSpaceOpt, rlit "care"],
  rseq [rlit "take", Rx.ws1, rlit "care"],
  rseq [rlit "help", Rx.ws1, rlit "myself"],
  wordGroup [rlit "shower", rlit "eat", rlit "eating", rlit "food", rlit "exercise", rlit "walk"]]

def supportRx : Rx := wordGroup [rlit "support",
  rseq [rlit "friend", Rx.opt (Rx.cls (fun c => c == 's'))],
  rlit "family", rlit "help",
  rseq [rlit "talk", Rx.opt (rlit "ing")], rseq [rlit "listen", Rx.opt (rlit "ing")]]

def professionalHelpRx : Rx := wordGroup [rlit "therapy", rlit "therapist",
  rseq [rlit "counsel", Rx.opt (rlit "l"), rlit "ing"],
  rseq [rlit "counsel", Rx.opt (rlit "l"), rlit "or"],
  rlit "professional", rlit "doctor", rlit "psychologist", rlit "psychiatrist"]

/-- Crisis pattern (source lines 114-116), evaluated first. -/
def crisisRx : Rx := ralt [
  rseq [rlit "suicid", ralt [rlit "e", rlit "al"]],
  rlit "kill myself",
  rlit "end my life",
  rseq [rlit "can", Rx.opt aposLit, rlit "t go on"],
  rseq [rlit "don", Rx.opt aposLit, rlit "t want to live"],
  rseq [rlit "self", hyphenOrSpaceOpt, rlit "harm"],
  rlit "hurt myself",
  rlit "take my life"]

/-- Pattern of `_explicit_help_request` (source line 177). -/
def helpRequestRx : Rx := wordGroup [rlit "suggest", rlit "recommendation", rlit "advice",
  rlit "tip", rlit "help", rlit "idea",
  rseq [rlit "what", Rx.ws1, ralt [rlit "can", rlit "should"], Rx.ws1, rlit "i", Rx.ws1, rlit "do"]]

-- Self-care sub-classifier patterns (source lines 202-208).

def physicalRx : Rx := wordGroup [rlit "tired", rlit "sleep", rlit "eat", rlit "food",
  rlit "body", rlit "physical", rlit "exercise", rlit "walk", rlit "shower"]

def socialRx : Rx := wordGroup [rlit "people", rlit "talk", rlit "friend", rlit "family",
  rlit "social", rlit "alone", rlit "lonely", rlit "connection"]

def spiritualRx : Rx := wordGroup [rlit "meaning", rlit "purpose", rlit "spiritual",
  rlit "faith", rlit "belief", rlit "meditation", rlit "nature", rlit "soul"]

def practicalRx : Rx := wordGroup [rlit "tasks", rlit "work", rlit "chores",
  rlit "overwhelmed", rlit "organize", rlit "decision", rlit "decide"]

-- Tables constructed by `__init__` (dict insertion order preserved).

/-- The single entry of the crisis reply bank (source line 82), transcribed verbatim. -/
def crisisReply : String := "I’m really glad you told me. You deserve immediate support. If you’re in danger or thinking of harming yourself, please call local emergency services now. If you’re in the U.S. or Canada, you can dial 988 for the Suicide & Crisis Lifeline. If possible, reach out to someone you trust to stay with you. I’ll stay with you here, too. Can you tell me where you are and if you’re safe right now?"

/-- Table `self.responses` (source lines 20-84), transcribed verbatim. -/
def responsesInit : List (String × List String) := [
  ("greeting", ["Hello—I’m here with you. How are you feeling right now?",
    "Welcome. This is a safe space to share what’s on your heart. How are you doing today?",
    "Hi. I’m here to listen. What feels heaviest at the moment?"]),
  ("feeling_bad", ["I’m hearing a lot of pain. Grief can feel like it takes over everything. What’s been most intense today?",
    "That sounds really hard. Your feelings make sense after a loss. Do you want to say more about what’s coming up?",
    "It’s okay to not be okay. If you can, tell me what’s underneath the sadness right now."]),
  ("feeling_better", ["I’m glad there’s a bit of ease. Grief comes in waves; it’s okay to let this calmer moment be real.",
    "Good to hear. Relief and sadness can coexist—both are valid. What helped a little today?",
    "Noticing a better moment matters. What seems to support you when it shows up?"]),
  ("memories", ["Thank you for sharing that. What’s a memory that feels especially alive right now?",
    "Holding onto their stories can be grounding. What was one of their quirks you loved?",
    "I’m honored you shared that. What qualities of theirs do you carry with you?"]),
  ("sleep_issues", ["Sleep can get disrupted by grief. Would a simple wind-down—dim lights, light reading, slow breaths—be worth trying tonight?",
    "Not sleeping makes everything harder. Some people jot down looping thoughts before bed—could that help you?",
    "If this keeps up, talking with a clinician might help. For now, even a brief rest routine can be gentler on your system."]),
  ("anniversary", ["Dates can reopen the ache. Would a small ritual—lighting a candle, visiting a place, sharing a story—feel supportive?",
    "Milestones are tender. Creating a new tradition to honor them can help hold the day.",
    "It’s natural for emotions to rise around anniversaries. Is there someone you’d want beside you that day?"]),
  ("guilt", ["Guilt shows up for many people after a loss. Relationships are imperfect; love isn’t measured by flawless choices.",
    "You sound very hard on yourself. If a friend said this to you, what compassion would you offer them?",
    "‘If only’ thoughts are common and painful. We can explore them gently if you’d like."]),
  ("anger", ["Anger is a valid part of grief. It can point to what mattered deeply. How does it show up in your body?",
    "Your anger makes sense. Is there a safe way to let it move—writing, movement, or hitting a pillow?",
    "Many feel uneasy with anger, but it’s normal after loss. We can sit with it here."]),
  ("self_care", ["Small, doable care counts. A glass of water, a short walk, or stepping outside can be enough for now.",
    "What’s one tiny act of care you could manage in the next hour?",
    "Self-care in grief can be permission to feel, rest, and do less. What might that look like today?"]),
  ("support", ["Having company helps. Who in your world can simply listen without fixing?",
    "It’s okay to ask for specific help. What would be most useful—meals, child care, a check-in call?",
    "Peer groups can help you feel less alone. Would you like ideas on how to find one?"]),
  ("professional_help", ["A grief-informed therapist can offer steadiness and tools. Want a few ways to search?",
    "Professional support can widen your coping options—telehealth is common if that’s easier.",
    "If you’re open to it, we can outline what a first session might look like."]),
  ("default", ["Thank you for sharing. What feels most challenging right now?",
    "I’m here. Would you like to tell me a bit more about what you’re experiencing?",
    "Grief is complex. Where does it tend to hit the hardest for you?"]),
  ("crisis", [crisisReply])]

/-- Table `self.followups` (source lines 87-93), transcribed verbatim. -/
def followupsInit : List (String × List String) := [
  ("feeling_bad", ["When did you first notice today’s dip?",
    "Where do you feel it in your body?"]),
  ("memories", ["Would you like to share a photo or another story sometime?",
    "How do you like to honor them day-to-day?"]),
  ("guilt", ["What part of this guilt feels the loudest?",
    "If you rewind that moment, what need were you trying to meet?"]),
  ("anger", ["Is there a safe outlet that has helped before?",
    "What does the anger want you to protect?"]),
  ("self_care", ["What’s one tiny step you could take in the next ten minutes?",
    "Who could text you a check-in later today?"])]

/-- Table `self.patterns` (source lines 99-111), in dict insertion order. -/
def patternsInit : List (String × Rx) := [
  ("greeting", greetingRx),
  ("feeling_bad", feelingBadRx),
  ("feeling_better", feelingBetterRx),
  ("memories", memoriesRx),
  ("sleep_issues", sleepIssuesRx),
  ("anniversary", anniversaryRx),
  ("guilt", guiltRx),
  ("anger", angerRx),
  ("self_care", selfCareRx),
  ("support", supportRx),
  ("professional_help", professionalHelpRx)]

/-- Table `self.priorities` (source lines 119-133). -/
def prioritiesInit : List String := ["crisis", "anniversary", "sleep_issues",
  "feeling_bad", "guilt", "anger", "memories", "self_care", "support",
  "professional_help", "feeling_better", "greeting", "default"]

/-- Table `self._self_care_recs()` (source lines 217-242), transcribed verbatim. -/
def self_care_recs : List (String × List String) := [
  ("physical", ["Try a two-minute body scan and slow breathing; even brief regulation helps your nervous system.",
    "A short walk or gentle stretch can release some of the tension grief holds.",
    "Hydrate and eat something simple; basics matter when energy is low.",
    "If you can, set a small wind-down routine tonight (lights down, no phone, one calming page)."]),
  ("emotional", ["Let feelings move without judging them—naming them softly can reduce their intensity.",
    "A few lines of journaling about ‘what hurts most’ can bring relief.",
    "It’s okay to feel moments of ease; they don’t erase your love."]),
  ("social", ["Text one trusted person: ‘Could you check in on me later? I’m having a rough day.’",
    "Ask for one concrete thing (a call, a walk, a meal) instead of ‘anything.’"]),
  ("spiritual", ["If it helps, light a candle or sit in nature for five minutes and breathe with what’s here.",
    "A brief mindfulness practice—counting five things you can see/hear/feel—can ground you."]),
  ("practical", ["Break today into the next tiny step; set a 10-minute timer and stop when it dings.",
    "Defer big decisions; grief narrows focus—give yourself time."])]

/-- Configuration `BotConfig` (source lines 8-11); the locale hint is unused by logic. -/
structure BotConfig where
  deterministic : Bool
deriving DecidableEq

/-- Oracle modelling `random.choice`: given the candidate list (or its length),
it designates one element; the modulus applied at use sites keeps it in range,
so quantifying over the oracle covers every possible random outcome. -/
structure Rng where
  pickIdx : List Nat → Nat
  pickLen : Nat → Nat

/-- State `self._used_indexes`: per-category set of consumed reply indices, with a
missing key behaving as the empty set (as `dict.setdefault` makes it). -/
def UsageState : Type := String → List Nat

/-- The bot instance: the tables built by `__init__` plus the mutable usage state. -/
structure Bot where
  cfg : BotConfig
  responses : List (String × List String)
  followups : List (String × List String)
  patterns : List (String × Rx)
  crisis_pattern : Rx
  priorities : List String
  used : UsageState

/-- The dict returned by `_pack`. -/
structure BotResult where
  text : String
  category : String
  matched_terms : String
deriving DecidableEq

/-- Model of `self._pack(category, text, matched)` (source lines 196-197). -/
def pack (category : String) (text : String) (matched : String) : BotResult :=
  { text := text, category := category, matched_terms := matched }

/-- Python `set.add` on an index set represented as a duplicate-free list. -/
def setAdd (used : List Nat) (i : Nat) : List Nat :=
  if used.contains i then used else i :: used

/-- Core of `_choose` (source lines 179-188): candidate indices are the
unconsumed ones; on exhaustion the set is cleared and candidates reset to the
whole bank; deterministic mode takes the lowest candidate (`choices[0]`),
otherwise the oracle designates one candidate (`random.choice(choices)`). -/
def chooseStep (det : Bool) (rng : Rng) (bank : List String) (used0 : List Nat) :
    String × List Nat :=
  let choices0 := (List.range bank.length).filter (fun i => !used0.contains i)
  let used1 := if choices0.isEmpty then [] else used0
  let choices := if choices0.isEmpty then List.range bank.length else choices0
  let idx := if det then choices.headD 0
             else choices.getD (rng.pickIdx choices % choices.length) 0
  (bank.getD idx "", setAdd used1 idx)

/-- Model of `self.responses.get(category, self.responses["default"])` (source line 180). -/
def bankOf (bot : Bot) (category : String) : List String :=
  (List.lookup category bot.responses).getD ((List.lookup "default" bot.responses).getD [])

/-- Model of `self._choose(category)` together with its effect on `_used_indexes`. -/
def chooseCat (bot : Bot) (rng : Rng) (category : String) : String × UsageState :=
  let r := chooseStep bot.cfg.deterministic rng (bankOf bot category) (bot.used category)
  (r.1, fun c => if c == category then r.2 else bot.used c)

/-- Model of `self._choose_followup(category)` (source lines 190-194): no usage tracking;
deterministic mode returns `bank[0]`, otherwise `random.choice(bank)`. -/
def choose_followup (bot : Bot) (rng : Rng) (category : String) : String :=
  match List.lookup category bot.followups with
  | none => ""
  | some bank =>
    if bank.isEmpty then ""
    else if bot.cfg.deterministic then bank.headD ""
    else bank.getD (rng.pickLen bank.length % bank.length) ""

/-- Model of `self._match_categories(text)` (source lines 163-168); `re.IGNORECASE` is
modelled by searching the lowercased text. -/
def match_categories (patterns : List (String × Rx)) (text : String) : List String :=
  (patterns.filter (fun p => rxSearch p.2 (strLower text))).map Prod.fst

/-- Model of `self._pick_by_priority(hits)` (source lines 170-174). -/
def pick_by_priority (priorities : List String) (hits : List String) : String :=
  match priorities.find? (fun c => hits.contains c) with
  | some c => c
  | none => "default"

/-- Model of `self._explicit_help_request(text)` (source lines 176-177). -/
def explicit_help_request (text : String) : Bool := rxSearch helpRequestRx (strLower text)

/-- Python `str.strip()` (ASCII whitespace part). -/
def pyStrip (s : String) : String :=
  String.mk (((s.data.dropWhile pyIsSpace).reverse.dropWhile pyIsSpace).reverse)

def strLe (a b : String) : Bool := !decide (b < a)

def insertStr (x : String) : List String → List String
  | [] => [x]
  | y :: ys => if strLe x y then x :: y :: ys else y :: insertStr x ys

/-- Python `sorted` on strings (code-point lexicographic), via insertion sort. -/
def sortStrings : List String → List String
  | [] => []
  | x :: xs => insertStr x (sortStrings xs)

/-- The tag chosen by the `if/elif` chain of `_get_self_care_suggestion`
(source lines 202-211); the argument is the already-lowercased message. -/
def self_care_tag (m : String) : String :=
  if rxSearch physicalRx m then "physical"
  else if rxSearch socialRx m then "social"
  else if rxSearch spiritualRx m then "spiritual"
  else if rxSearch practicalRx m then "practical"
  else "emotional"

/-- The suggestion picked from the tag's list: `recs[0]` in deterministic mode,
`random.choice(recs)` otherwise (source line 214). -/
def self_care_pick (det : Bool) (rng : Rng) (tag : String) : String :=
  let recs := (List.lookup tag self_care_recs).getD []
  if det then recs.headD "" else recs.getD (rng.pickLen recs.length % recs.length) ""

/-- Model of `self._get_self_care_suggestion(message)` (source lines 200-215). -/
def get_self_care_suggestion (det : Bool) (rng : Rng) (message : String) : String :=
  "It sounds like you could use support. " ++
    self_care_pick det rng (self_care_tag (strLower message)) ++
    " Would you like another suggestion?"

/-- The hardcoded reply for empty input (source line 142). -/
def inviteReply : String := "I’m here. Say anything that feels manageable to share."

/-- Model of `self.get_response(message)` (source lines 139-160).  `None` input is
modelled by `Option.none`; `message or ""` becomes `Option.getD "" `.  The
returned pair is (result dict, bot after the call). -/
def get_response (bot : Bot) (rng : Rng) (message : Option String) : BotResult × Bot :=
  let text := pyStrip (message.getD "")
  if text.isEmpty then
    (pack "default" inviteReply "", bot)
  else if rxSearch bot.crisis_pattern (strLower text) then
    (pack "crisis" (chooseCat bot rng "crisis").1 "crisis",
     { bot with used := (chooseCat bot rng "crisis").2 })
  else
    let hits := match_categories bot.patterns text
    let category := if hits.isEmpty then "default" else pick_by_priority bot.priorities hits
    if explicit_help_request text then
      (pack "self_care" (get_self_care_suggestion bot.cfg.deterministic rng text)
        "self_care(help)", bot)
    else
      let base := (chooseCat bot rng category).1
      let fu := choose_followup bot rng category
      (pack category (if fu.isEmpty then base else base ++ " " ++ fu)
        (if hits.isEmpty then "" else String.intercalate "," (sortStrings hits)),
       { bot with used := (chooseCat bot rng category).2 })

/-- A freshly constructed bot (`__init__`, source lines 14-136). -/
def initBot (det : Bool) : Bot :=
  { cfg := { deterministic := det }, responses := responsesInit,
    followups := followupsInit, patterns := patternsInit,
    crisis_pattern := crisisRx, priorities := prioritiesInit,
    used := fun _ => [] }

/-- A bot in an arbitrary reachable usage state. -/
def mkBot (det : Bool) (u : UsageState) : Bot := { initBot det with used := u }

/-- A fixed trivial oracle, used where deterministic mode ignores randomness. -/
def oracle0 : Rng := { pickIdx := fun _ => 0, pickLen := fun _ => 0 }

/-- Usage state of one category after `k` deterministic-mode selections from
`bank`, starting from the empty consumed set. -/
def detUsed (rng : Rng) (bank : List String) : Nat → List Nat
  | 0 => []
  | k + 1 => (chooseStep true rng bank (detUsed rng bank k)).2

/-- The reply returned by the `(k+1)`-th deterministic-mode selection from
`bank`, starting from the empty consumed set. -/
def detReply (rng : Rng) (bank : List String) (k : Nat) : String :=
  (chooseStep true rng bank (detUsed rng bank k)).1

/-- Size of the consumed set before the `(k+1)`-th selection: it grows
`0, 1, …, n` and collapses back to `1` right after the reset pick. -/
def rOf (n k : Nat) : Nat := if k = 0 then 0 else (k - 1) % n + 1

/-- The bot after `k` consecutive `get_response` calls on the same message. -/
def respondStateN (bot : Bot) (rng : Rng) (msg : Option String) : Nat → Bot
  | 0 => bot
  | k + 1 => (get_response (respondStateN bot rng msg k) rng msg).2

/-- The reply text of the `(k+1)`-th consecutive `get_response` call. -/
def replyTextN (bot : Bot) (rng : Rng) (msg : Option String) (k : Nat) : String :=
  (get_response (respondStateN bot rng msg k) rng msg).1.text

-- General helper lemmas

theorem lookup_mem {β : Type} {l : List (String × β)} {a : String} {b : β}
    (h : List.lookup a l = some b) : (a, b) ∈ l := by
  induction l with
  | nil => simp at h
  | cons p t ih =>
    obtain ⟨k, v⟩ := p
    rw [List.lookup_cons] at h
    cases hk : a == k
    · rw [hk] at h
      exact List.mem_cons_of_mem _ (ih h)
    · rw [hk] at h
      have ha : a = k := eq_of_beq hk
      have hv : v = b := Option.some.inj h
      subst ha; subst hv
      exact List.mem_cons_self _ _

theorem getD_mem (l : List String) (n : Nat) (h : n < l.length) : l.getD n "" ∈ l := by
  induction l generalizing n with
  | nil => simp at h
  | cons a as ih =>
    cases n with
    | zero => simp
    | succ m =>
      simp only [List.getD_cons_succ]
      exact List.mem_cons_of_mem _ (ih m (by simpa using h))

/-- Selecting either the head or an oracle-designated in-range element of a
nonempty list yields an element of the list. -/
theorem choosePick_mem (det : Bool) (k : Nat) (l : List String) (h : l ≠ []) :
    (if det then l.headD "" else l.getD (k % l.length) "") ∈ l := by
  cases det
  · simp only [Bool.false_eq_true, if_neg]
    have hlen : 0 < l.length := List.length_pos.mpr h
    exact getD_mem l _ (Nat.mod_lt _ hlen)
  · simp only [if_pos]
    cases l with
    | nil => exact absurd rfl h
    | cons a as => simp

/-- With a one-element bank, `_choose` returns that element in both modes and
from every usage state. -/
theorem chooseStep_singleton (det : Bool) (rng : Rng) (t : String) (used : List Nat) :
    (chooseStep det rng [t] used).1 = t := by
  unfold chooseStep
  by_cases hc : 0 ∈ used <;> cases det <;>
    simp [hc, List.range_succ, List.filter_cons, Nat.mod_one]

/-- Function `_pick_by_priority` is first-match-in-priority-order with `"default"` fallback. -/
theorem pick_by_priority_eq (priorities hits : List String) :
    pick_by_priority priorities hits =
      (List.find? (fun c => hits.contains c) priorities).getD "default" := by
  unfold pick_by_priority
  cases List.find? (fun c => hits.contains c) priorities <;> rfl

theorem find?_nil_hits (l : List String) :
    List.find? (fun c => ([] : List String).contains c) l = none := by
  induction l with
  | nil => rfl
  | cons a t ih => simp [List.find?, ih]

-- Claim theorems

/-- C10: calling `get_response` with `None` (modelled as `Option.none`) does not
fail: the `message or ""` guard makes it behave exactly as on the empty string,
returning the fixed default result with category `"default"`, the invitation
reply, empty `matched_terms`, and an unchanged bot. -/
theorem none_input_default (bot : Bot) (rng : Rng) :
    get_response bot rng none = (pack "default" inviteReply "", bot) ∧
    get_response bot rng none = get_response bot rng (some "") := by
  exact ⟨rfl, rfl⟩

/-- C2: for every input whose stripped text is empty, `get_response` returns
category `"default"`, the fixed invitation-to-share reply, and empty
`matched_terms`, leaving the bot (in particular its usage state) unchanged;
since this holds for a bot with arbitrary tables and state, the result consults
neither the patterns nor the usage state. -/
theorem empty_input_default (bot : Bot) (rng : Rng) (msg : String)
    (h : (pyStrip msg).isEmpty = true) :
    get_response bot rng (some msg) = (pack "default" inviteReply "", bot) := by
  unfold get_response
  simp [h]

theorem empty_input_default_witness :
    (pyStrip "   ").isEmpty = true ∧
    get_response (initBot true) oracle0 (some "   ") =
      (pack "default" inviteReply "", initBot true) := by
  exact ⟨by decide, empty_input_default (initBot true) oracle0 "   " (by decide)⟩

/-- C1: whenever the stripped text is non-empty and the crisis pattern matches
it (case-insensitively), `get_response` returns category `"crisis"`,
`matched_terms = "crisis"` and the single fixed crisis reply, in either mode,
for every oracle, and from every usage state; no hypothesis about the other
category patterns or the advice-request pattern is needed, so the result is
the same whatever else matches, and no other category is reported. -/
theorem crisis_override (det : Bool) (u : UsageState) (rng : Rng) (msg : String)
    (h1 : (pyStrip msg).isEmpty = false)
    (h2 : rxSearch crisisRx (strLower (pyStrip msg)) = true) :
    (get_response (mkBot det u) rng (some msg)).1 = pack "crisis" crisisReply "crisis" := by
  have hb : bankOf (mkBot det u) "crisis" = [crisisReply] := rfl
  unfold get_response
  simp only [Option.getD_some, h1, Bool.false_eq_true, if_false]
  have hcp : (mkBot det u).crisis_pattern = crisisRx := rfl
  rw [hcp, h2]
  simp only [if_true]
  unfold chooseCat
  rw [hb]
  simp only [chooseStep_singleton]

theorem crisis_override_witness :
    (pyStrip "I want to kill myself and I feel sad").isEmpty = false ∧
    rxSearch crisisRx (strLower (pyStrip "I want to kill myself and I feel sad")) = true ∧
    (get_response (mkBot false (fun _ => [0])) oracle0
        (some "I want to kill myself and I feel sad")).1 =
      pack "crisis" crisisReply "crisis" := by
  exact ⟨by decide, by decide,
    crisis_override false (fun _ => [0]) oracle0 "I want to kill myself and I feel sad"
      (by decide) (by decide)⟩

/-- C4: on non-empty, non-crisis input matching the advice-request pattern,
`get_response` overrides the outgoing category to `"self_care"`, reports
`matched_terms = "self_care(help)"`, and returns the reply built by the
self-care suggestion sub-algorithm instead of a reply bank entry, leaving the
bot state untouched; no hypothesis about the category hits is needed, so the
override fires even when the hits were empty or resolved elsewhere, and by C1
it can never fire once the crisis pattern matched. -/
theorem advice_override (det : Bool) (u : UsageState) (rng : Rng) (msg : String)
    (h1 : (pyStrip msg).isEmpty = false)
    (h2 : rxSearch crisisRx (strLower (pyStrip msg)) = false)
    (h3 : explicit_help_request (pyStrip msg) = true) :
    get_response (mkBot det u) rng (some msg) =
      (pack "self_care" (get_self_care_suggestion det rng (pyStrip msg)) "self_care(help)",
       mkBot det u) := by
  unfold get_response
  have hcp : (mkBot det u).crisis_pattern = crisisRx := rfl
  have hdet : (mkBot det u).cfg.deterministic = det := rfl
  simp only [Option.getD_some, h1, Bool.false_eq_true, if_false, hcp, h2, hdet, h3, if_true]

theorem advice_override_witness :
    (pyStrip "any tip to help right now?").isEmpty = false ∧
    rxSearch crisisRx (strLower (pyStrip "any tip to help right now?")) = false ∧
    explicit_help_request (pyStrip "any tip to help right now?") = true ∧
    get_response (mkBot true (fun _ => [])) oracle0 (some "any tip to help right now?") =
      (pack "self_care"
        (get_self_care_suggestion true oracle0 (pyStrip "any tip to help right now?"))
        "self_care(help)", mkBot true (fun _ => [])) := by
  exact ⟨by decide, by decide, by decide,
    advice_override true (fun _ => []) oracle0 "any tip to help right now?"
      (by decide) (by decide) (by decide)⟩

/-- C3: on non-empty, non-crisis input not triggering the advice override, the
returned category is the first element of the priority order (spelled out
literally here, exactly as the claim lists it) that is among the matched
categories, and `"default"` when the matched set is empty. -/
theorem priority_resolution (det : Bool) (u : UsageState) (rng : Rng) (msg : String)
    (h1 : (pyStrip msg).isEmpty = false)
    (h2 : rxSearch crisisRx (strLower (pyStrip msg)) = false)
    (h3 : explicit_help_request (pyStrip msg) = false) :
    (get_response (mkBot det u) rng (some msg)).1.category =
      (List.find? (fun c => (match_categories patternsInit (pyStrip msg)).contains c)
        ["crisis", "anniversary", "sleep_issues", "feeling_bad", "guilt", "anger",
         "memories", "self_care", "support", "professional_help", "feeling_better",
         "greeting", "default"]).getD "default" := by
  unfold get_response
  have hcp : (mkBot det u).crisis_pattern = crisisRx := rfl
  have hpat : (mkBot det u).patterns = patternsInit := rfl
  have hpri : (mkBot det u).priorities = prioritiesInit := rfl
  simp only [Option.getD_some, h1, Bool.false_eq_true, if_false, hcp, h2, hpat, hpri, h3]
  by_cases hh : match_categories patternsInit (pyStrip msg) = []
  · rw [hh, find?_nil_hits]
    simp [pack]
  · have hE : (match_categories patternsInit (pyStrip msg)).isEmpty = false := by
      cases hmc : match_categories patternsInit (pyStrip msg) with
      | nil => exact absurd hmc hh
      | cons a t => rfl
    simp only [hE, Bool.false_eq_true, if_false, pack]
    exact pick_by_priority_eq prioritiesInit _

theorem priority_resolution_witness :
    (pyStrip "I feel sad about our anniversary").isEmpty = false ∧
    rxSearch crisisRx (strLower (pyStrip "I feel sad about our anniversary")) = false ∧
    explicit_help_request (pyStrip "I feel sad about our anniversary") = false ∧
    (get_response (mkBot true (fun _ => [])) oracle0
        (some "I feel sad about our anniversary")).1.category = "anniversary" := by
  refine ⟨by decide, by decide, by decide, ?_⟩
  have h := priority_resolution true (fun _ => []) oracle0 "I feel sad about our anniversary"
    (by decide) (by decide) (by decide)
  rw [h]
  decide

/-- C8: classification is stateless — on the same text, from any two usage
states and for any two oracles, `get_response` yields the same resolved
category and the same `matched_terms` string (the matched-category set itself,
`match_categories patternsInit`, is a pure function of the text by
construction); only the reply text may differ. -/
theorem classification_stateless (det : Bool) (u u' : UsageState) (rng rng' : Rng)
    (msg : String) :
    (get_response (mkBot det u) rng (some msg)).1.category =
      (get_response (mkBot det u') rng' (some msg)).1.category ∧
    (get_response (mkBot det u) rng (some msg)).1.matched_terms =
      (get_response (mkBot det u') rng' (some msg)).1.matched_terms := by
  unfold get_response
  have hcp : (mkBot det u).crisis_pattern = crisisRx := rfl
  have hcp' : (mkBot det u').crisis_pattern = crisisRx := rfl
  have hpat : (mkBot det u).patterns = patternsInit := rfl
  have hpat' : (mkBot det u').patterns = patternsInit := rfl
  have hpri : (mkBot det u).priorities = prioritiesInit := rfl
  have hpri' : (mkBot det u').priorities = prioritiesInit := rfl
  by_cases h1 : (pyStrip msg).isEmpty <;>
    by_cases h2 : rxSearch crisisRx (strLower (pyStrip msg)) <;>
      by_cases h3 : explicit_help_request (pyStrip msg) <;>
        simp [h1, h2, h3, hcp, hcp', hpat, hpat', hpri, hpri', pack]

/-- The usage map after `_choose(cat)` differs from the old one at most at
`cat`, where it is the selection-algorithm update. -/
theorem frame_used_choose (bot : Bot) (rng : Rng) (cat : String) (c : String) :
    (chooseCat bot rng cat).2 c = bot.used c ∨
      (cat = c ∧ (chooseCat bot rng cat).2 c =
        (chooseStep bot.cfg.deterministic rng (bankOf bot c) (bot.used c)).2) := by
  unfold chooseCat
  by_cases hc : c = cat
  · subst hc
    right
    exact ⟨rfl, by simp⟩
  · left
    simp [hc]

/-- C9: a call to `get_response` leaves the configuration, reply banks,
follow-up banks, pattern table, crisis pattern and priority list unchanged;
the usage state is the only field that can change, it changes at most at the
reported category, and any change is exactly the `_choose` selection step
(whose exhaustion rule is the only reset).  This holds for a bot with
arbitrary table contents, so no path of the function writes those fields. -/
theorem respond_frame (bot : Bot) (rng : Rng) (msg : Option String) :
    ((get_response bot rng msg).2.cfg = bot.cfg ∧
     (get_response bot rng msg).2.responses = bot.responses ∧
     (get_response bot rng msg).2.followups = bot.followups ∧
     (get_response bot rng msg).2.patterns = bot.patterns ∧
     (get_response bot rng msg).2.crisis_pattern = bot.crisis_pattern ∧
     (get_response bot rng msg).2.priorities = bot.priorities) ∧
    ∀ c : String, (get_response bot rng msg).2.used c = bot.used c ∨
      ((get_response bot rng msg).1.category = c ∧
       (get_response bot rng msg).2.used c =
         (chooseStep bot.cfg.deterministic rng (bankOf bot c) (bot.used c)).2) := by
  unfold get_response
  by_cases h1 : (pyStrip (msg.getD "")).isEmpty = true
  · simp only [h1, if_true]
    exact ⟨⟨trivial, trivial, trivial, trivial, trivial, trivial⟩, fun c => Or.inl trivial⟩
  · simp only [Bool.not_eq_true] at h1
    simp only [h1, Bool.false_eq_true, if_false]
    by_cases h2 : rxSearch bot.crisis_pattern (strLower (pyStrip (msg.getD ""))) = true
    · simp only [h2, if_true]
      exact ⟨⟨trivial, trivial, trivial, trivial, trivial, trivial⟩,
        fun c => frame_used_choose bot rng "crisis" c⟩
    · simp only [Bool.not_eq_true] at h2
      simp only [h2, Bool.false_eq_true, if_false]
      by_cases h3 : explicit_help_request (pyStrip (msg.getD "")) = true
      · simp only [h3, if_true]
        exact ⟨⟨trivial, trivial, trivial, trivial, trivial, trivial⟩,
          fun c => Or.inl trivial⟩
      · simp only [Bool.not_eq_true] at h3
        simp only [h3, Bool.false_eq_true, if_false]
        exact ⟨⟨trivial, trivial, trivial, trivial, trivial, trivial⟩,
          fun c => frame_used_choose bot rng _ c⟩

/-- C7: the self-care sub-classifier tests the keyword groups in the fixed
order physical, social, spiritual, practical, the first matching group wins,
`"emotional"` is the catch-all, and the returned reply wraps the suggestion
picked from the chosen tag's list in the exact support template; the picked
suggestion is always an element of that tag's list. -/
theorem self_care_classification (det : Bool) (rng : Rng) (msg : String) :
    (rxSearch physicalRx (strLower msg) = true →
      self_care_tag (strLower msg) = "physical") ∧
    (rxSearch physicalRx (strLower msg) = false →
      rxSearch socialRx (strLower msg) = true →
      self_care_tag (strLower msg) = "social") ∧
    (rxSearch physicalRx (strLower msg) = false →
      rxSearch socialRx (strLower msg) = false →
      rxSearch spiritualRx (strLower msg) = true →
      self_care_tag (strLower msg) = "spiritual") ∧
    (rxSearch physicalRx (strLower msg) = false →
      rxSearch socialRx (strLower msg) = false →
      rxSearch spiritualRx (strLower msg) = false →
      rxSearch practicalRx (strLower msg) = true →
      self_care_tag (strLower msg) = "practical") ∧
    (rxSearch physicalRx (strLower msg) = false →
      rxSearch socialRx (strLower msg) = false →
      rxSearch spiritualRx (strLower msg) = false →
      rxSearch practicalRx (strLower msg) = false →
      self_care_tag (strLower msg) = "emotional") ∧
    get_self_care_suggestion det rng msg =
      "It sounds like you could use support. " ++
        self_care_pick det rng (self_care_tag (strLower msg)) ++
        " Would you like another suggestion?" ∧
    self_care_pick det rng (self_care_tag (strLower msg)) ∈
      (List.lookup (self_care_tag (strLower msg)) self_care_recs).getD [] := by
  refine ⟨?_, ?_, ?_, ?_, ?_, rfl, ?_⟩
  · intro p1
    unfold self_care_tag
    simp [p1]
  · intro p1 p2
    unfold self_care_tag
    simp [p1, p2]
  · intro p1 p2 p3
    unfold self_care_tag
    simp [p1, p2, p3]
  · intro p1 p2 p3 p4
    unfold self_care_tag
    simp [p1, p2, p3, p4]
  · intro p1 p2 p3 p4
    unfold self_care_tag
    simp [p1, p2, p3, p4]
  · have htag : (List.lookup (self_care_tag (strLower msg)) self_care_recs).getD [] ≠ [] := by
      unfold self_care_tag
      by_cases p1 : rxSearch physicalRx (strLower msg) = true <;>
        by_cases p2 : rxSearch socialRx (strLower msg) = true <;>
          by_cases p3 : rxSearch spiritualRx (strLower msg) = true <;>
            by_cases p4 : rxSearch practicalRx (strLower msg) = true <;>
              simp [p1, p2, p3, p4] <;> decide
    unfold self_care_pick
    exact choosePick_mem det _ _ htag

theorem self_care_classification_witness :
    rxSearch physicalRx (strLower "I am so tired and my friend left") = true ∧
    rxSearch socialRx (strLower "I am so tired and my friend left") = true ∧
    self_care_tag (strLower "I am so tired and my friend left") = "physical" := by
  exact ⟨by decide, by decide,
    (self_care_classification true oracle0 "I am so tired and my friend left").1 (by decide)⟩

-- Lemmas for the non-repeating selection rule (C5)

theorem succ_mod (j n : Nat) (hn : 0 < n) :
    (j + 1) % n = if j % n + 1 = n then 0 else j % n + 1 := by
  have h1 : j % n < n := Nat.mod_lt j hn
  by_cases h : j % n + 1 = n
  · rw [if_pos h]
    conv_lhs => rw [← Nat.mod_add_div j n]
    rw [Nat.add_right_comm, h, Nat.add_comm, ← Nat.mul_succ]
    exact Nat.mul_mod_right n _
  · rw [if_neg h]
    conv_lhs => rw [← Nat.mod_add_div j n]
    rw [Nat.add_right_comm, Nat.add_mul_mod_self_left]
    exact Nat.mod_eq_of_lt (by omega)

theorem rOf_le (n k : Nat) (hn : 0 < n) : rOf n k ≤ n := by
  unfold rOf
  by_cases hk : k = 0
  · simp [hk]
  · simp [hk]
    have := Nat.mod_lt (k - 1) hn
    omega

theorem filter_not_lt (n r : Nat) :
    (List.range n).filter (fun i => !decide (i < r)) = List.range' r (n - r) := by
  induction n with
  | zero => simp
  | succ m ih =>
    rw [List.range_succ, List.filter_append, ih]
    by_cases h : m < r
    · have h1 : m - r = 0 := by omega
      have h2 : m + 1 - r = 0 := by omega
      simp [h, h1, h2]
    · have h1 : m + 1 - r = (m - r) + 1 := by omega
      have h2 : r + (m - r) = m := by omega
      rw [h1, List.range'_1_concat, h2]
      simp [h]

/-- A deterministic selection step from a consumed set holding exactly the
indices below `r < n`: it returns entry `r` and consumes it. -/
theorem chooseStep_det_mid (rng : Rng) (bank : List String) (used : List Nat) (r : Nat)
    (hinv : ∀ i, used.contains i = decide (i < r)) (hr : r < bank.length) :
    (chooseStep true rng bank used).1 = bank.getD r "" ∧
    ∀ i, (chooseStep true rng bank used).2.contains i = decide (i < r + 1) := by
  unfold chooseStep
  have hfil : (List.range bank.length).filter (fun i => !used.contains i) =
      List.range' r (bank.length - r) := by
    rw [List.filter_congr (fun a _ => by rw [hinv a]), filter_not_lt]
  have hne : bank.length - r = (bank.length - r - 1) + 1 := by omega
  rw [hne] at hfil
  simp only [hfil, List.range'_succ, List.isEmpty_cons, Bool.false_eq_true, if_false,
    if_true, List.headD_cons]
  constructor
  · trivial
  · intro i
    unfold setAdd
    rw [hinv r, if_neg (by simp)]
    rw [List.contains_cons, hinv i]
    by_cases hi : i = r
    · subst hi
      simp
    · have hiff : i < r ↔ i < r + 1 := by omega
      simp [hi, hiff]

/-- A deterministic selection step from a fully consumed set: the exhaustion
rule clears the set, the pick restarts at entry `0`, and afterwards exactly
index `0` is consumed. -/
theorem chooseStep_det_full (rng : Rng) (bank : List String) (used : List Nat)
    (hinv : ∀ i, used.contains i = decide (i < bank.length)) (hn : 0 < bank.length) :
    (chooseStep true rng bank used).1 = bank.getD 0 "" ∧
    ∀ i, (chooseStep true rng bank used).2.contains i = decide (i < 1) := by
  unfold chooseStep
  have hfil : (List.range bank.length).filter (fun i => !used.contains i) = [] := by
    rw [List.filter_congr (fun a _ => by rw [hinv a]), filter_not_lt, Nat.sub_self,
      List.range'_zero]
  have hrange : List.range bank.length = 0 :: List.range' 1 (bank.length - 1) := by
    cases hbl : bank.length with
    | zero => omega
    | succ m =>
      rw [List.range_eq_range', List.range'_succ]
      simp
  simp only [hfil]
  simp only [List.isEmpty_nil, if_true]
  simp only [hrange, List.headD_cons]
  constructor
  · trivial
  · intro i
    unfold setAdd
    rw [if_neg (by simp)]
    rw [List.contains_cons, List.contains_nil]
    by_cases hi : i = 0
    · subst hi
      simp
    · have hlt : ¬ i < 1 := by omega
      simp [hi, hlt]

/-- Invariant of the deterministic selection loop: before the `(k+1)`-th
selection the consumed set holds exactly the indices below `rOf n k`. -/
theorem detUsed_inv (rng : Rng) (bank : List String) (hn : 0 < bank.length) (k : Nat) :
    ∀ i, (detUsed rng bank k).contains i = decide (i < rOf bank.length k) := by
  induction k with
  | zero =>
    intro i
    simp [detUsed, rOf]
  | succ m ih =>
    by_cases hcase : rOf bank.length m < bank.length
    · have h := chooseStep_det_mid rng bank (detUsed rng bank m) (rOf bank.length m) ih hcase
      intro i
      show (chooseStep true rng bank (detUsed rng bank m)).2.contains i = _
      rw [h.2 i]
      have heq : rOf bank.length (m + 1) = rOf bank.length m + 1 := by
        by_cases hm : m = 0
        · subst hm
          unfold rOf
          simp
        · unfold rOf
          rw [if_neg (Nat.succ_ne_zero m), if_neg hm, Nat.add_sub_cancel]
          unfold rOf at hcase
          rw [if_neg hm] at hcase
          conv_lhs => rw [show m = (m - 1) + 1 from by omega]
          rw [succ_mod _ _ hn, if_neg (by omega)]
      rw [heq]
    · have hrn : rOf bank.length m = bank.length := by
        have := rOf_le bank.length m hn
        omega
      have ih' : ∀ i, (detUsed rng bank m).contains i = decide (i < bank.length) := by
        intro i
        rw [ih i, hrn]
      have h := chooseStep_det_full rng bank (detUsed rng bank m) ih' hn
      intro i
      show (chooseStep true rng bank (detUsed rng bank m)).2.contains i = _
      rw [h.2 i]
      have hm : m ≠ 0 := by
        intro h0
        rw [h0] at hrn
        unfold rOf at hrn
        simp at hrn
        omega
      have heq : rOf bank.length (m + 1) = 1 := by
        unfold rOf
        unfold rOf at hrn
        rw [if_neg hm] at hrn
        rw [if_neg (Nat.succ_ne_zero m)]
        rw [Nat.add_sub_cancel]
        rw [show m = (m - 1) + 1 from by omega, succ_mod _ _ hn, if_pos (by omega)]
      rw [heq]

/-- C5: for every category of the reply table, deterministic-mode selections
starting from the fresh (empty) usage state return the bank entries cyclically
in increasing index order: the `(k+1)`-th selection returns entry `k % n` where
`n` is the bank size.  In particular the first `n` selections return all `n`
entries in order without repetition, the consumed set resets only after all
`n` entries have been returned (lemma `detUsed_inv`), and a bank of size `1`
returns its single entry on every call. -/
theorem deterministic_cycling (rng : Rng) (cat : String) (bank : List String)
    (hl : List.lookup cat responsesInit = some bank) (k : Nat) :
    detReply rng bank k = bank.getD (k % bank.length) "" := by
  have hmem := lookup_mem hl
  have hnonempty : ∀ p ∈ responsesInit, 0 < p.2.length := by decide
  have hn : 0 < bank.length := hnonempty _ hmem
  have hinv := detUsed_inv rng bank hn k
  unfold detReply
  by_cases hcase : rOf bank.length k < bank.length
  · have h := chooseStep_det_mid rng bank (detUsed rng bank k) (rOf bank.length k) hinv hcase
    rw [h.1]
    congr 1
    unfold rOf
    by_cases hk : k = 0
    · subst hk
      simp
    · rw [if_neg hk]
      unfold rOf at hcase
      rw [if_neg hk] at hcase
      conv_rhs => rw [show k = (k - 1) + 1 from by omega]
      rw [succ_mod _ _ hn, if_neg (by omega)]
  · have hrn : rOf bank.length k = bank.length := by
      have := rOf_le bank.length k hn
      omega
    have hinv' : ∀ i, (detUsed rng bank k).contains i = decide (i < bank.length) := by
      intro i
      rw [hinv i, hrn]
    have h := chooseStep_det_full rng bank (detUsed rng bank k) hinv' hn
    rw [h.1]
    congr 1
    have hk : k ≠ 0 := by
      intro h0
      rw [h0] at hrn
      unfold rOf at hrn
      simp at hrn
      omega
    unfold rOf at hrn
    rw [if_neg hk] at hrn
    conv_rhs => rw [show k = (k - 1) + 1 from by omega]
    rw [succ_mod _ _ hn, if_pos (by omega)]

theorem deterministic_cycling_witness :
    List.lookup "greeting" responsesInit = some
      ["Hello—I’m here with you. How are you feeling right now?",
       "Welcome. This is a safe space to share what’s on your heart. How are you doing today?",
       "Hi. I’m here to listen. What feels heaviest at the moment?"] ∧
    detReply oracle0
      ["Hello—I’m here with you. How are you feeling right now?",
       "Welcome. This is a safe space to share what’s on your heart. How are you doing today?",
       "Hi. I’m here to listen. What feels heaviest at the moment?"] 4 =
      "Welcome. This is a safe space to share what’s on your heart. How are you doing today?" ∧
    replyTextN (initBot true) oracle0 (some "hi") 0 =
      "Hello—I’m here with you. How are you feeling right now?" ∧
    replyTextN (initBot true) oracle0 (some "hi") 1 =
      "Welcome. This is a safe space to share what’s on your heart. How are you doing today?" ∧
    replyTextN (initBot true) oracle0 (some "hi") 2 =
      "Hi. I’m here to listen. What feels heaviest at the moment?" ∧
    replyTextN (initBot true) oracle0 (some "hi") 3 =
      "Hello—I’m here with you. How are you feeling right now?" := by
  refine ⟨rfl, ?_, by decide, by decide, by decide, by decide⟩
  exact (deterministic_cycling oracle0 "greeting" _ rfl 4).trans (by decide)

/-- C6 counterexample: follow-ups are NOT selected by the non-repeating rule.
In deterministic mode, with the follow-up bank of `feeling_bad` holding two
distinct strings, two consecutive calls on the same `feeling_bad` input both
append the FIRST follow-up: the follow-up repeats on the second call although
the other entry of the bank has never been shown, contradicting the claim. -/
theorem followup_nonrepeat_cex :
    (get_response (initBot true) oracle0 (some "I feel sad")).1.text =
      "I’m hearing a lot of pain. Grief can feel like it takes over everything. What’s been most intense today? When did you first notice today’s dip?" ∧
    (get_response ((get_response (initBot true) oracle0 (some "I feel sad")).2) oracle0
        (some "I feel sad")).1.text =
      "That sounds really hard. Your feelings make sense after a loss. Do you want to say more about what’s coming up? When did you first notice today’s dip?" ∧
    List.lookup "feeling_bad" followupsInit =
      some ["When did you first notice today’s dip?", "Where do you feel it in your body?"] ∧
    ("When did you first notice today’s dip?" : String) ≠
      "Where do you feel it in your body?" := by
  exact ⟨by decide, by decide, by decide, by decide⟩

/-- On a bot whose follow-up table is the source one and whose mode is
deterministic, the string appended after the main reply is always the FIRST
entry of the category's follow-up bank (whatever the usage state), space-joined,
and omitted exactly when the category has no follow-up entry. -/
theorem joinReply_followup_first (bot : Bot) (rng : Rng) (cat : String) (base : String)
    (hdet : bot.cfg.deterministic = true) (hfo : bot.followups = followupsInit) :
    (if (choose_followup bot rng cat).isEmpty then base
     else base ++ " " ++ choose_followup bot rng cat) =
      base ++ (match List.lookup cat followupsInit with
               | some (f :: _) => " " ++ f
               | some [] => ""
               | none => "") := by
  have hne : ∀ p ∈ followupsInit, (p.2.headD "").isEmpty = false := by decide
  unfold choose_followup
  rw [hfo, hdet]
  cases hl : List.lookup cat followupsInit with
  | none =>
    have h0 : ("" : String).isEmpty = true := rfl
    simp [h0]
  | some bank =>
    cases bank with
    | nil =>
      have h0 : ("" : String).isEmpty = true := rfl
      simp [h0]
    | cons f fs =>
      have hf : (f.isEmpty : Bool) = false := hne (cat, f :: fs) (lookup_mem hl)
      simp [hf, String.append_assoc]

/-- C6 amended: on the non-override reply path the follow-up appended after the
main reply (space-joined, omitted exactly when the category has no entry in
the follow-up table) is selected WITHOUT repetition tracking: in deterministic
mode it is always the first entry of the category's follow-up bank, whatever
the usage state (in random mode it is an oracle choice from the full bank,
likewise untracked). -/
theorem followup_no_tracking (u : UsageState) (rng : Rng) (msg : String)
    (h1 : (pyStrip msg).isEmpty = false)
    (h2 : rxSearch crisisRx (strLower (pyStrip msg)) = false)
    (h3 : explicit_help_request (pyStrip msg) = false) :
    (get_response (mkBot true u) rng (some msg)).1.text =
      (chooseCat (mkBot true u) rng
        (get_response (mkBot true u) rng (some msg)).1.category).1 ++
      (match List.lookup (get_response (mkBot true u) rng (some msg)).1.category
          followupsInit with
       | some (f :: _) => " " ++ f
       | some [] => ""
       | none => "") := by
  conv_lhs => unfold get_response
  conv_rhs => unfold get_response
  have hcp : (mkBot true u).crisis_pattern = crisisRx := rfl
  simp only [Option.getD_some, h1, Bool.false_eq_true, if_false, hcp, h2, h3]
  exact joinReply_followup_first (mkBot true u) rng _ _ rfl rfl

theorem followup_no_tracking_witness :
    (pyStrip "I feel sad").isEmpty = false ∧
    rxSearch crisisRx (strLower (pyStrip "I feel sad")) = false ∧
    explicit_help_request (pyStrip "I feel sad") = false ∧
    (get_response (mkBot true (fun _ => [1])) oracle0 (some "I feel sad")).1.text =
      (chooseCat (mkBot true (fun _ => [1])) oracle0
        (get_response (mkBot true (fun _ => [1])) oracle0 (some "I feel sad")).1.category).1 ++
      (match List.lookup
          (get_response (mkBot true (fun _ => [1])) oracle0 (some "I feel sad")).1.category
          followupsInit with
       | some (f :: _) => " " ++ f
       | some [] => ""
       | none => "") := by
  exact ⟨by decide, by decide, by decide,
    followup_no_tracking (fun _ => [1]) oracle0 "I feel sad"
      (by decide) (by decide) (by decide)⟩

end GriefBot
